import Mathlib

/-!
Verification of the core of the `dracory/llm` Go package: the configuration
resolver (`mergeOptions` in functions.go), the provider registry
(`RegisterProvider` / `NewLLM` in interfaces.go), the factory defaulting
logic (`createProvider` in factory.go) and the secure transport builder
(`buildAnthropicHTTPClient` in anthropic_implementation.go).

Go machine integers are modelled as `Int`, `float64` fields that the code
only ever compares for equality as `Rat`, Go strings as `String`, nilable
Go values (`map`, pointers) as `Option`, and fallible Go functions
returning `(T, error)` as `Except String T`.
-/

namespace Llm

/-- Go `type Provider string` (constants.go). -/
abbrev Provider := String

/-- Go `type OutputFormat string` (constants.go). -/
abbrev OutputFormat := String

def ProviderOpenAI : Provider := "openai"

def ProviderGemini : Provider := "gemini"

def ProviderVertex : Provider := "vertex"

def ProviderMock : Provider := "mock"

def ProviderAnthropic : Provider := "anthropic"

def ProviderCustom : Provider := "custom"

/-- The OpenRouter provider identifier; its constant declaration is not in
the provided sources, but the README documents the identifier `openrouter`
and factory.go / interfaces.go use the constant. -/
def ProviderOpenRouter : Provider := "openrouter"

def OutputFormatText : OutputFormat := "text"

def OutputFormatJSON : OutputFormat := "json"

def OutputFormatImagePNG : OutputFormat := "image/png"

def OutputFormatImageJPG : OutputFormat := "image/jpeg"

/-- Go struct `LlmOptions` (interfaces.go).  `MaxTokens int` becomes `Int`;
`Temperature float64` becomes `Rat` (the merge and factory code only test
it against `0`); `Logger *slog.Logger` becomes an `Option` over an opaque
handle; `ProviderOptions map[string]any` becomes an `Option` over an
association list (Go `nil` map = `none`). -/
@[ext]
structure LlmOptions where
  Provider : Provider
  MockResponse : String
  ApiKey : String
  ProjectID : String
  Region : String
  Model : String
  MaxTokens : Int
  Temperature : Rat
  Verbose : Bool
  Logger : Option Nat
  OutputFormat : OutputFormat
  ProviderOptions : Option (List (String × String))
deriving Repr, DecidableEq

/-- The Go zero value of `LlmOptions`: every field in its
"caller did not specify this" state. -/
def LlmOptions.zero : LlmOptions :=
  { Provider := "", MockResponse := "", ApiKey := "", ProjectID := "",
    Region := "", Model := "", MaxTokens := 0, Temperature := 0,
    Verbose := false, Logger := none, OutputFormat := "",
    ProviderOptions := none }

/-!
`mergeOptions` (functions.go) copies `oldOptions` field by field into a
fresh record and then runs one `if` statement per field, overwriting that
field from `newOptions` when the latter is not the Go zero value.  Each Go
`if` block is rendered below as one small update function, and
`mergeOptions` is their composition in source order.
-/

/-- functions.go: `if newOptions.Provider != "" { options.Provider = newOptions.Provider }`. -/
def updProvider (options newOptions : LlmOptions) : LlmOptions :=
  if newOptions.Provider ≠ "" then
    { options with Provider := newOptions.Provider } else options

/-- functions.go: `if newOptions.ApiKey != "" { options.ApiKey = newOptions.ApiKey }`. -/
def updApiKey (options newOptions : LlmOptions) : LlmOptions :=
  if newOptions.ApiKey ≠ "" then
    { options with ApiKey := newOptions.ApiKey } else options

/-- functions.go: `if newOptions.Model != "" { options.Model = newOptions.Model }`. -/
def updModel (options newOptions : LlmOptions) : LlmOptions :=
  if newOptions.Model ≠ "" then
    { options with Model := newOptions.Model } else options

/-- functions.go: `if newOptions.MaxTokens != 0 { options.MaxTokens = newOptions.MaxTokens }`. -/
def updMaxTokens (options newOptions : LlmOptions) : LlmOptions :=
  if newOptions.MaxTokens ≠ 0 then
    { options with MaxTokens := newOptions.MaxTokens } else options

/-- functions.go: `if newOptions.ProjectID != "" { options.ProjectID = newOptions.ProjectID }`. -/
def updProjectID (options newOptions : LlmOptions) : LlmOptions :=
  if newOptions.ProjectID ≠ "" then
    { options with ProjectID := newOptions.ProjectID } else options

/-- functions.go: `if newOptions.Region != "" { options.Region = newOptions.Region }`. -/
def updRegion (options newOptions : LlmOptions) : LlmOptions :=
  if newOptions.Region ≠ "" then
    { options with Region := newOptions.Region } else options

/-- functions.go: `if newOptions.Temperature != 0 { options.Temperature = newOptions.Temperature }`. -/
def updTemperature (options newOptions : LlmOptions) : LlmOptions :=
  if newOptions.Temperature ≠ 0 then
    { options with Temperature := newOptions.Temperature } else options

/-- functions.go: `if newOptions.Verbose { options.Verbose = true }`; the
source comment notes "Verbose can only be turned on via merge, not turned
off, because the zero value (false) is indistinguishable from not set". -/
def updVerbose (options newOptions : LlmOptions) : LlmOptions :=
  if newOptions.Verbose then
    { options with Verbose := true } else options

/-- functions.go: `if newOptions.OutputFormat != "" { options.OutputFormat = newOptions.OutputFormat }`. -/
def updOutputFormat (options newOptions : LlmOptions) : LlmOptions :=
  if newOptions.OutputFormat ≠ "" then
    { options with OutputFormat := newOptions.OutputFormat } else options

/-- functions.go: `if newOptions.ProviderOptions != nil { options.ProviderOptions = newOptions.ProviderOptions }`. -/
def updProviderOptions (options newOptions : LlmOptions) : LlmOptions :=
  if newOptions.ProviderOptions ≠ none then
    { options with ProviderOptions := newOptions.ProviderOptions } else options

/-- functions.go: `if newOptions.Logger != nil { options.Logger = newOptions.Logger }`. -/
def updLogger (options newOptions : LlmOptions) : LlmOptions :=
  if newOptions.Logger ≠ none then
    { options with Logger := newOptions.Logger } else options

/-- functions.go: `if newOptions.MockResponse != "" { options.MockResponse = newOptions.MockResponse }`. -/
def updMockResponse (options newOptions : LlmOptions) : LlmOptions :=
  if newOptions.MockResponse ≠ "" then
    { options with MockResponse := newOptions.MockResponse } else options

/-- The field-by-field copy of `oldOptions` that opens `mergeOptions`
(functions.go lines 7-20). -/
def copyOptions (oldOptions : LlmOptions) : LlmOptions :=
  { Provider := oldOptions.Provider, ApiKey := oldOptions.ApiKey,
    Model := oldOptions.Model, MaxTokens := oldOptions.MaxTokens,
    ProviderOptions := oldOptions.ProviderOptions,
    ProjectID := oldOptions.ProjectID, Region := oldOptions.Region,
    Temperature := oldOptions.Temperature, Verbose := oldOptions.Verbose,
    OutputFormat := oldOptions.OutputFormat, Logger := oldOptions.Logger,
    MockResponse := oldOptions.MockResponse }

/-- `mergeOptions` (functions.go): the copy followed by the twelve field
overrides, in source order. -/
def mergeOptions (oldOptions newOptions : LlmOptions) : LlmOptions :=
  updMockResponse (updLogger (updProviderOptions (updOutputFormat
    (updVerbose (updTemperature (updRegion (updProjectID (updMaxTokens
      (updModel (updApiKey (updProvider (copyOptions oldOptions)
        newOptions) newOptions) newOptions) newOptions) newOptions)
          newOptions) newOptions) newOptions) newOptions) newOptions)
            newOptions) newOptions

theorem copyOptions_eq (o : LlmOptions) : copyOptions o = o := rfl

theorem updProvider_eq (o n : LlmOptions) : updProvider o n =
    { o with Provider := if n.Provider ≠ "" then n.Provider else o.Provider } := by
  unfold updProvider; split <;> rename_i h <;> simp [h]

theorem updApiKey_eq (o n : LlmOptions) : updApiKey o n =
    { o with ApiKey := if n.ApiKey ≠ "" then n.ApiKey else o.ApiKey } := by
  unfold updApiKey; split <;> rename_i h <;> simp [h]

theorem updModel_eq (o n : LlmOptions) : updModel o n =
    { o with Model := if n.Model ≠ "" then n.Model else o.Model } := by
  unfold updModel; split <;> rename_i h <;> simp [h]

theorem updMaxTokens_eq (o n : LlmOptions) : updMaxTokens o n =
    { o with MaxTokens := if n.MaxTokens ≠ 0 then n.MaxTokens else o.MaxTokens } := by
  unfold updMaxTokens; split <;> rename_i h <;> simp [h]

theorem updProjectID_eq (o n : LlmOptions) : updProjectID o n =
    { o with ProjectID := if n.ProjectID ≠ "" then n.ProjectID else o.ProjectID } := by
  unfold updProjectID; split <;> rename_i h <;> simp [h]

theorem updRegion_eq (o n : LlmOptions) : updRegion o n =
    { o with Region := if n.Region ≠ "" then n.Region else o.Region } := by
  unfold updRegion; split <;> rename_i h <;> simp [h]

theorem updTemperature_eq (o n : LlmOptions) : updTemperature o n =
    { o with Temperature := if n.Temperature ≠ 0 then n.Temperature else o.Temperature } := by
  unfold updTemperature; split <;> rename_i h <;> simp [h]

theorem updVerbose_eq (o n : LlmOptions) : updVerbose o n =
    { o with Verbose := if n.Verbose then true else o.Verbose } := by
  unfold updVerbose; split <;> rename_i h <;> simp [h]

theorem updOutputFormat_eq (o n : LlmOptions) : updOutputFormat o n =
    { o with OutputFormat := if n.OutputFormat ≠ "" then n.OutputFormat else o.OutputFormat } := by
  unfold updOutputFormat; split <;> rename_i h <;> simp [h]

theorem updProviderOptions_eq (o n : LlmOptions) : updProviderOptions o n =
    { o with ProviderOptions :=
        if n.ProviderOptions ≠ none then n.ProviderOptions else o.ProviderOptions } := by
  unfold updProviderOptions; split <;> rename_i h <;> simp [h]

theorem updLogger_eq (o n : LlmOptions) : updLogger o n =
    { o with Logger := if n.Logger ≠ none then n.Logger else o.Logger } := by
  unfold updLogger; split <;> rename_i h <;> simp [h]

theorem updMockResponse_eq (o n : LlmOptions) : updMockResponse o n =
    { o with MockResponse :=
        if n.MockResponse ≠ "" then n.MockResponse else o.MockResponse } := by
  unfold updMockResponse; split <;> rename_i h <;> simp [h]

/-- `mergeOptions` written as a single record of twelve conditionals: the
normal form used by the theorems below. -/
theorem mergeOptions_eq (a b : LlmOptions) : mergeOptions a b =
    { Provider := if b.Provider ≠ "" then b.Provider else a.Provider,
      MockResponse := if b.MockResponse ≠ "" then b.MockResponse else a.MockResponse,
      ApiKey := if b.ApiKey ≠ "" then b.ApiKey else a.ApiKey,
      ProjectID := if b.ProjectID ≠ "" then b.ProjectID else a.ProjectID,
      Region := if b.Region ≠ "" then b.Region else a.Region,
      Model := if b.Model ≠ "" then b.Model else a.Model,
      MaxTokens := if b.MaxTokens ≠ 0 then b.MaxTokens else a.MaxTokens,
      Temperature := if b.Temperature ≠ 0 then b.Temperature else a.Temperature,
      Verbose := if b.Verbose then true else a.Verbose,
      Logger := if b.Logger ≠ none then b.Logger else a.Logger,
      OutputFormat := if b.OutputFormat ≠ "" then b.OutputFormat else a.OutputFormat,
      ProviderOptions :=
        if b.ProviderOptions ≠ none then b.ProviderOptions else a.ProviderOptions } := by
  unfold mergeOptions
  rw [copyOptions_eq, updProvider_eq, updApiKey_eq, updModel_eq,
    updMaxTokens_eq, updProjectID_eq, updRegion_eq, updTemperature_eq,
    updVerbose_eq, updOutputFormat_eq, updProviderOptions_eq, updLogger_eq,
    updMockResponse_eq]

/-- "Every field of the override is in its not-specified state", as the
code represents absence: the Go zero value of each field. -/
def LlmOptions.allUnset (o : LlmOptions) : Prop :=
  o.Provider = "" ∧ o.ApiKey = "" ∧ o.Model = "" ∧ o.MaxTokens = 0 ∧
  o.ProjectID = "" ∧ o.Region = "" ∧ o.Temperature = 0 ∧
  o.Verbose = false ∧ o.OutputFormat = "" ∧ o.ProviderOptions = none ∧
  o.Logger = none ∧ o.MockResponse = ""

instance (o : LlmOptions) : Decidable o.allUnset := by
  unfold LlmOptions.allUnset; infer_instance

/-- C1: the claim states that an override which explicitly sets verbose to
false yields a merged configuration with verbose false.  The code cannot
express "explicitly false": the override's `Verbose` field is a plain Go
bool whose zero value `false` is skipped by the merge, so the base's
`true` survives.  This theorem evaluates the code at the claim's failing
input: `base = {verbose: true}`, `override = {verbose: false}` (the only
representation of explicitly-false), and the merged verbose is `true`,
not `false` as the claim requires. -/
theorem mergeOptions_verbose_not_disabled :
    (mergeOptions { LlmOptions.zero with Verbose := true }
      LlmOptions.zero).Verbose = true := by
  simp [mergeOptions_eq, LlmOptions.zero]

/-- C2: the claim states that an explicit zero in the override for
temperature or max-output-size survives the merge.  The code guards both
fields with `!= 0`, so an override of `0` is indistinguishable from "not
specified" and is discarded: with `base = {MaxTokens: 100, Temperature: 1}`
and an override whose `MaxTokens` and `Temperature` are (explicitly) `0`,
the merged values are still `100` and `1`, not `0` as the claim
requires. -/
theorem mergeOptions_zero_override_discarded :
    (mergeOptions { LlmOptions.zero with MaxTokens := 100, Temperature := 1 }
        LlmOptions.zero).MaxTokens = 100 ∧
    (mergeOptions { LlmOptions.zero with MaxTokens := 100, Temperature := 1 }
        LlmOptions.zero).Temperature = 1 := by
  constructor <;> simp [mergeOptions_eq, LlmOptions.zero]

/-- C5: when every field of the override is in its not-specified state
(the Go zero value, which is how the code represents absence), the merge
returns the base unchanged; and field by field, the merge takes the
override's value exactly when that field is explicitly specified (differs
from its zero value) and the base's value otherwise. -/
theorem mergeOptions_precedence (base ov : LlmOptions) :
    (ov.allUnset → mergeOptions base ov = base) ∧
    (mergeOptions base ov).Provider =
      (if ov.Provider ≠ "" then ov.Provider else base.Provider) ∧
    (mergeOptions base ov).ApiKey =
      (if ov.ApiKey ≠ "" then ov.ApiKey else base.ApiKey) ∧
    (mergeOptions base ov).Model =
      (if ov.Model ≠ "" then ov.Model else base.Model) ∧
    (mergeOptions base ov).MaxTokens =
      (if ov.MaxTokens ≠ 0 then ov.MaxTokens else base.MaxTokens) ∧
    (mergeOptions base ov).ProjectID =
      (if ov.ProjectID ≠ "" then ov.ProjectID else base.ProjectID) ∧
    (mergeOptions base ov).Region =
      (if ov.Region ≠ "" then ov.Region else base.Region) ∧
    (mergeOptions base ov).Temperature =
      (if ov.Temperature ≠ 0 then ov.Temperature else base.Temperature) ∧
    (mergeOptions base ov).Verbose =
      (if ov.Verbose then ov.Verbose else base.Verbose) ∧
    (mergeOptions base ov).OutputFormat =
      (if ov.OutputFormat ≠ "" then ov.OutputFormat else base.OutputFormat) ∧
    (mergeOptions base ov).ProviderOptions =
      (if ov.ProviderOptions ≠ none then ov.ProviderOptions
        else base.ProviderOptions) ∧
    (mergeOptions base ov).Logger =
      (if ov.Logger ≠ none then ov.Logger else base.Logger) ∧
    (mergeOptions base ov).MockResponse =
      (if ov.MockResponse ≠ "" then ov.MockResponse else base.MockResponse) := by
  refine ⟨?_, ?_, ?_, ?_, ?_, ?_, ?_, ?_, ?_, ?_, ?_, ?_, ?_⟩
  · intro h
    obtain ⟨h1, h2, h3, h4, h5, h6, h7, h8, h9, h10, h11, h12⟩ := h
    ext <;> simp [mergeOptions_eq, h1, h2, h3, h4, h5, h6, h7, h8, h9,
      h10, h11, h12]
  all_goals
    simp [mergeOptions_eq]
  · cases hv : ov.Verbose <;> simp [hv]

/-- Witness for C5 at a concrete input: an all-unset override leaves the
base configuration unchanged. -/
theorem mergeOptions_precedence_witness :
    mergeOptions { LlmOptions.zero with Model := "base-model" }
        LlmOptions.zero =
      { LlmOptions.zero with Model := "base-model" } :=
  (mergeOptions_precedence { LlmOptions.zero with Model := "base-model" }
    LlmOptions.zero).1 (by decide)

/-- C6: the merge is idempotent in its second argument:
`merge(merge(a, b), b) = merge(a, b)` for all configurations `a`, `b`. -/
theorem mergeOptions_idem (a b : LlmOptions) :
    mergeOptions (mergeOptions a b) b = mergeOptions a b := by
  ext <;> simp only [mergeOptions_eq] <;> split <;> simp_all

/-- C8: a non-nil provider-specific extension map in the override replaces
the base's map wholesale: the merged map is exactly the override's map,
with no key-wise merging of the base's entries. -/
theorem mergeOptions_providerOptions_replaced (a b : LlmOptions)
    (m : List (String × String)) (h : b.ProviderOptions = some m) :
    (mergeOptions a b).ProviderOptions = some m := by
  simp [mergeOptions_eq, h]

/-- Witness for C8 at a concrete input: a base with map entries and an
override with a different non-nil map; the result is the override's map,
the base's entry is gone. -/
theorem mergeOptions_providerOptions_replaced_witness :
    (mergeOptions
        { LlmOptions.zero with ProviderOptions := some [("k", "base")] }
        { LlmOptions.zero with
            ProviderOptions := some [("url", "https://x")] }).ProviderOptions =
      some [("url", "https://x")] :=
  mergeOptions_providerOptions_replaced _ _ _ rfl

/-!
The provider registry (interfaces.go).  The Go global map
`providerFactories` guarded by `providerMu` is modelled as an explicit
association list passed to `NewLLM`; a factory returns either an adapter
(abstract type `α`) or an error string.
-/

/-- A provider registry: the contents of the Go `providerFactories` map. -/
abbrev Registry (α : Type) := List (Provider × (LlmOptions → Except String α))

/-- `NewLLM` (interfaces.go): defaults an empty provider to OpenAI, looks
the factory up in the registry, fails with an `unsupported LLM provider`
error naming the identifier when no entry exists, and otherwise invokes
the factory, propagating its error unmodified. -/
def NewLLM {α : Type} (registry : Registry α) (options : LlmOptions) :
    Except String α :=
  let options := if options.Provider = "" then
    { options with Provider := ProviderOpenAI } else options
  match registry.lookup options.Provider with
  | none => .error ("unsupported LLM provider: " ++ options.Provider)
  | some factory =>
    match factory options with
    | .error err => .error err
    | .ok llm => .ok llm

/-- C7: for a (non-empty) provider identifier with no registered factory,
`NewLLM` fails with an error that names the identifier; when the
registered factory itself returns an error, that very error is returned
to the caller unmodified. -/
theorem NewLLM_spec {α : Type} (registry : Registry α)
    (options : LlmOptions) (hp : options.Provider ≠ "") :
    (registry.lookup options.Provider = none →
      NewLLM registry options =
        .error ("unsupported LLM provider: " ++ options.Provider)) ∧
    (∀ (factory : LlmOptions → Except String α) (e : String),
      registry.lookup options.Provider = some factory →
      factory options = .error e →
      NewLLM registry options = .error e) := by
  constructor
  · intro h
    simp only [NewLLM, if_neg hp, h]
  · intro factory e hf he
    simp only [NewLLM, if_neg hp, hf, he]

/-- A concrete registry used by the witness for C7: a single entry whose
factory always fails. -/
def registryW : Registry Nat :=
  [(ProviderMock, fun _ => .error "mock factory failed")]

/-- Witness for C7 at concrete inputs: an unregistered identifier gives
the naming error, and a failing factory's error comes back verbatim. -/
theorem NewLLM_spec_witness :
    NewLLM registryW { LlmOptions.zero with Provider := "no-such" } =
      .error "unsupported LLM provider: no-such" ∧
    NewLLM registryW { LlmOptions.zero with Provider := ProviderMock } =
      .error "mock factory failed" := by
  constructor
  · exact (NewLLM_spec registryW
      { LlmOptions.zero with Provider := "no-such" } (by decide)).1 rfl
  · exact (NewLLM_spec registryW
      { LlmOptions.zero with Provider := ProviderMock } (by decide)).2
      _ "mock factory failed" rfl rfl

/-!
The factory (factory.go).  `createProvider` validates required fields,
fills in defaults, and ends with `return NewLLM(options)`.
-/

/-- factory.go: the `supportedProviders` slice inside `createProvider`. -/
def supportedProviders : List Provider :=
  [ProviderOpenAI, ProviderGemini, ProviderVertex, ProviderAnthropic,
   ProviderMock, ProviderOpenRouter]

/-- factory.go: `if options.MaxTokens == 0 { options.MaxTokens = 4096;
if provider == ProviderVertex { options.MaxTokens = 8192 } }`. -/
def defaultMaxTokens (provider : Provider) (options : LlmOptions) :
    LlmOptions :=
  if options.MaxTokens = 0 then
    { options with MaxTokens :=
        if provider = ProviderVertex then 8192 else 4096 }
  else options

/-- factory.go: `if options.Temperature == 0 { options.Temperature = 0.7 }`. -/
def defaultTemperature (options : LlmOptions) : LlmOptions :=
  if options.Temperature = 0 then
    { options with Temperature := (0.7 : Rat) }
  else options

/-- factory.go: `if options.Region == "" && provider == ProviderVertex
{ options.Region = "europe-west1" }`. -/
def defaultRegion (provider : Provider) (options : LlmOptions) :
    LlmOptions :=
  if options.Region = "" ∧ provider = ProviderVertex then
    { options with Region := "europe-west1" }
  else options

/-- The validation-and-defaulting part of `createProvider` (factory.go):
everything the function does before its final `return NewLLM(options)`,
producing the options that are handed to `NewLLM` (or the construction
error). -/
def createProviderChecked (provider : Provider)
    (outputFormat : OutputFormat) (options : LlmOptions) :
    Except String LlmOptions :=
  let options := { options with
    Provider := provider, OutputFormat := outputFormat }
  if provider = ProviderGemini ∧ options.ApiKey = "" then
    .error "Google Gemini API key is required"
  else if provider = ProviderVertex ∧ options.ApiKey = "" then
    .error "Vertex AI project ID is required"
  else if provider = ProviderAnthropic ∧ options.ApiKey = "" then
    .error "Anthropic API key is required"
  else if provider = ProviderOpenRouter ∧ options.ApiKey = "" then
    .error "OpenRouter API key is required"
  else if provider ≠ ProviderMock ∧ options.Model = "" then
    .error "Model is required"
  else
    let options := defaultMaxTokens provider options
    let options := defaultTemperature options
    if options.ProjectID = "" ∧ provider = ProviderVertex then
      .error "Vertex AI project ID is required"
    else
      let options := defaultRegion provider options
      if ¬ supportedProviders.contains provider then
        .error ("unsupported provider: " ++ provider)
      else
        .ok options

theorem defaultMaxTokens_MaxTokens (p : Provider) (o : LlmOptions) :
    (defaultMaxTokens p o).MaxTokens =
      if o.MaxTokens = 0 then (if p = ProviderVertex then 8192 else 4096)
      else o.MaxTokens := by
  unfold defaultMaxTokens; split <;> rename_i hc <;> simp [hc]

theorem defaultMaxTokens_Temperature (p : Provider) (o : LlmOptions) :
    (defaultMaxTokens p o).Temperature = o.Temperature := by
  unfold defaultMaxTokens; split <;> rfl

theorem defaultTemperature_Temperature (o : LlmOptions) :
    (defaultTemperature o).Temperature =
      if o.Temperature = 0 then (0.7 : Rat) else o.Temperature := by
  unfold defaultTemperature; split <;> rename_i hc <;> simp [hc]

theorem defaultTemperature_MaxTokens (o : LlmOptions) :
    (defaultTemperature o).MaxTokens = o.MaxTokens := by
  unfold defaultTemperature; split <;> rfl

theorem defaultRegion_MaxTokens (p : Provider) (o : LlmOptions) :
    (defaultRegion p o).MaxTokens = o.MaxTokens := by
  unfold defaultRegion; split <;> rfl

theorem defaultRegion_Temperature (p : Provider) (o : LlmOptions) :
    (defaultRegion p o).Temperature = o.Temperature := by
  unfold defaultRegion; split <;> rfl

/-- `createProvider` (factory.go): the checks and defaults above followed
by `return NewLLM(options)`. -/
def createProvider {α : Type} (registry : Registry α) (provider : Provider)
    (outputFormat : OutputFormat) (options : LlmOptions) :
    Except String α :=
  (createProviderChecked provider outputFormat options).bind
    (NewLLM registry)

/-- `TextModel` (factory.go). -/
def TextModel {α : Type} (registry : Registry α) (provider : Provider)
    (options : LlmOptions) : Except String α :=
  createProvider registry provider OutputFormatText options

/-- `JSONModel` (factory.go). -/
def JSONModel {α : Type} (registry : Registry α) (provider : Provider)
    (options : LlmOptions) : Except String α :=
  createProvider registry provider OutputFormatJSON options

/-- `ImageModel` (factory.go). -/
def ImageModel {α : Type} (registry : Registry α) (provider : Provider)
    (options : LlmOptions) : Except String α :=
  createProvider registry provider OutputFormatImagePNG options

/-- C10: at factory construction, a `MaxTokens` of 0 in the caller's
options is replaced with 4096 (8192 for the Vertex provider), and,
independently, a `Temperature` of 0 is replaced with 0.7, before the
adapter is built: the options that `createProvider` hands to `NewLLM`
carry the non-zero defaults, so a caller's explicit zero in either field
is silently overwritten, regardless of the other field's value. -/
theorem createProvider_zero_defaults (provider : Provider)
    (outputFormat : OutputFormat) (options : LlmOptions)
    (o' : LlmOptions)
    (h : createProviderChecked provider outputFormat options =
      Except.ok o') :
    (options.MaxTokens = 0 →
      o'.MaxTokens = (if provider = ProviderVertex then 8192 else 4096)) ∧
    (options.Temperature = 0 → o'.Temperature = 0.7) := by
  unfold createProviderChecked at h
  simp only [] at h
  repeat' split at h
  all_goals try exact Except.noConfusion h
  cases h
  refine ⟨fun hM => ?_, fun hT => ?_⟩
  · simp [defaultRegion_MaxTokens, defaultTemperature_MaxTokens,
      defaultMaxTokens_MaxTokens, hM]
  · simp [defaultRegion_Temperature, defaultTemperature_Temperature,
      defaultMaxTokens_Temperature, hT]

/-- Witness for C10 at concrete inputs, one per defaulted field: the mock
provider with `MaxTokens = 0` but a non-zero temperature (2) gets
MaxTokens 4096, and with `Temperature = 0` but a non-zero token limit
gets Temperature 0.7. -/
theorem createProvider_zero_defaults_witness :
    ({ LlmOptions.zero with
        Provider := ProviderMock, OutputFormat := OutputFormatText,
        MaxTokens := 4096, Temperature := 2 } : LlmOptions).MaxTokens =
      (if ProviderMock = ProviderVertex then 8192 else 4096) ∧
    ({ LlmOptions.zero with
        Provider := ProviderMock, OutputFormat := OutputFormatText,
        MaxTokens := 2048, Temperature := 0.7 } : LlmOptions).Temperature =
      0.7 :=
  ⟨(createProvider_zero_defaults ProviderMock OutputFormatText
      { LlmOptions.zero with Temperature := 2 }
      { LlmOptions.zero with
        Provider := ProviderMock, OutputFormat := OutputFormatText,
        MaxTokens := 4096, Temperature := 2 } rfl).1 rfl,
   (createProvider_zero_defaults ProviderMock OutputFormatText
      { LlmOptions.zero with MaxTokens := 2048 }
      { LlmOptions.zero with
        Provider := ProviderMock, OutputFormat := OutputFormatText,
        MaxTokens := 2048, Temperature := 0.7 } rfl).2 rfl⟩

/-!
The secure transport builder (anthropic_implementation.go).  Byte slices
are modelled as `List Nat` (hashes, decoded pins) or `String` (PEM file
contents); `sha256.Sum256` is an abstract hash function parameter;
`os.ReadFile`, `AppendCertsFromPEM` success, `x509.SystemCertPool`
availability and `base64.StdEncoding.DecodeString` are collected in a
`CryptoEnv` record of abstract effect functions.
-/

/-- The part of Go `x509.Certificate` the pinning callback reads. -/
structure Certificate where
  RawSubjectPublicKeyInfo : List Nat
deriving DecidableEq, Repr

/-- The part of Go `tls.ConnectionState` the pinning callback reads. -/
structure ConnectionState where
  PeerCertificates : List Certificate
deriving DecidableEq, Repr

/-- Go `subtle.ConstantTimeCompare`: returns 1 exactly when the two byte
slices have equal length and equal contents, 0 otherwise. -/
def constantTimeCompare (x y : List Nat) : Nat :=
  if x = y then 1 else 0

/-- The `VerifyConnection` callback that `buildAnthropicHTTPClient`
installs when an expected SPKI pin is configured
(anthropic_implementation.go): error when the peer certificate list is
empty, error when the SHA-256 of the leaf's subject-public-key-info does
not equal the expected pin under the constant-time comparison, success
otherwise.  `sha256Spki` abstracts `sha256.Sum256`. -/
def verifyConnection (sha256Spki : List Nat → List Nat)
    (expectedPin : List Nat) (state : ConnectionState) :
    Except String Unit :=
  match state.PeerCertificates with
  | [] => .error "anthropic: no peer certificates for pinning"
  | leaf :: _ =>
    if constantTimeCompare (sha256Spki leaf.RawSubjectPublicKeyInfo)
        expectedPin ≠ 1 then
      .error "anthropic: certificate pin mismatch"
    else
      .ok ()

/-- C3: with an expected pin configured, the handshake verification
function rejects every connection state with an empty peer-certificate
list, rejects every connection state whose leaf SPKI hash differs from
the pin, and accepts a connection state whose leaf SPKI hash equals the
pin. -/
theorem verifyConnection_spec (sha256Spki : List Nat → List Nat)
    (expectedPin : List Nat) (state : ConnectionState) :
    (state.PeerCertificates = [] →
      verifyConnection sha256Spki expectedPin state =
        .error "anthropic: no peer certificates for pinning") ∧
    (∀ leaf rest, state.PeerCertificates = leaf :: rest →
      (sha256Spki leaf.RawSubjectPublicKeyInfo ≠ expectedPin →
        verifyConnection sha256Spki expectedPin state =
          .error "anthropic: certificate pin mismatch") ∧
      (sha256Spki leaf.RawSubjectPublicKeyInfo = expectedPin →
        verifyConnection sha256Spki expectedPin state = .ok ())) := by
  refine ⟨?_, ?_⟩
  · intro h
    simp [verifyConnection, h]
  · intro leaf rest h
    constructor
    · intro hne
      simp [verifyConnection, h, constantTimeCompare, hne]
    · intro heq
      simp [verifyConnection, h, constantTimeCompare, heq]

/-- Witness for C3 at concrete inputs (the hash function instantiated by
the identity): empty peer list rejected, wrong hash rejected, matching
hash accepted. -/
theorem verifyConnection_spec_witness :
    verifyConnection (fun l => l) [1, 2] ⟨[]⟩ =
      .error "anthropic: no peer certificates for pinning" ∧
    verifyConnection (fun l => l) [1, 2] ⟨[⟨[9, 9]⟩]⟩ =
      .error "anthropic: certificate pin mismatch" ∧
    verifyConnection (fun l => l) [1, 2] ⟨[⟨[1, 2]⟩]⟩ = .ok () := by
  refine ⟨?_, ?_, ?_⟩
  · exact (verifyConnection_spec (fun l => l) [1, 2] ⟨[]⟩).1 rfl
  · exact ((verifyConnection_spec (fun l => l) [1, 2]
      ⟨[⟨[9, 9]⟩]⟩).2 ⟨[9, 9]⟩ [] rfl).1 (by decide)
  · exact ((verifyConnection_spec (fun l => l) [1, 2]
      ⟨[⟨[1, 2]⟩]⟩).2 ⟨[1, 2]⟩ [] rfl).2 rfl

/-- Whether the root pool started from the system pool
(`x509.SystemCertPool` succeeded) or from a fresh empty pool. -/
inductive PoolBase where
  | systemPool
  | emptyPool
deriving DecidableEq, Repr

/-- Go `x509.CertPool`: its starting point plus the PEM blobs
successfully appended to it. -/
structure CertPool where
  base : PoolBase
  appended : List String
deriving DecidableEq, Repr

/-- The parts of Go `tls.Config` that `buildAnthropicHTTPClient` sets.
`VerifyConnection` records the expected pin captured by the installed
callback (`none` when no callback is installed). -/
structure TLSClientConfig where
  minVersionTLS12 : Bool
  RootCAs : Option CertPool
  VerifyConnection : Option (List Nat)
deriving DecidableEq, Repr

/-- The parts of the Go `http.Client`/`http.Transport` pair that
`buildAnthropicHTTPClient` sets. -/
structure HTTPClient where
  timeoutSeconds : Nat
  tlsHandshakeTimeoutSeconds : Nat
  forceAttemptHTTP2 : Bool
  tlsClientConfig : TLSClientConfig
deriving DecidableEq, Repr

/-- The abstract platform effects used by `buildAnthropicHTTPClient`:
whether `x509.SystemCertPool` returns a usable pool, the file system
(`os.ReadFile`), whether `AppendCertsFromPEM` succeeds on given PEM text,
and `base64.StdEncoding.DecodeString`. -/
structure CryptoEnv where
  systemPoolOk : Bool
  readFile : String → Except String String
  appendCertsOk : String → Bool
  base64Decode : String → Option (List Nat)

/-- Go `unicode.IsSpace` restricted to the ASCII whitespace characters
(the only ones relevant to the trust-policy strings). -/
def isSpaceChar (c : Char) : Bool :=
  c == ' ' || c == '\t' || c == '\n' || c == '\r'

/-- Go `strings.TrimSpace`: drop leading and trailing whitespace. -/
def goTrimSpace (s : String) : String :=
  String.mk (((s.data.dropWhile isSpaceChar).reverse.dropWhile
    isSpaceChar).reverse)

/-- Go `strings.HasPrefix` on character lists (string, then pattern). -/
def goStartsWithL : List Char → List Char → Bool
  | _, [] => true
  | [], _ :: _ => false
  | c :: cs, p :: ps => c == p && goStartsWithL cs ps

/-- anthropic_implementation.go: `spkiHash = strings.TrimSpace(spkiHash)`
followed by `strings.TrimPrefix(spkiHash, "sha256/")` when the prefix is
present (the prefix is 7 characters long). -/
def normalizePin (s : String) : String :=
  let t := goTrimSpace s
  if goStartsWithL t.data "sha256/".data then String.mk (t.data.drop 7)
  else t

/-- The root-CA portion of `buildAnthropicHTTPClient`: when either CA
input is present, start from the system pool (or a fresh one if the
system pool is unavailable), append the inline PEM and then the file's
PEM, failing on malformed PEM or an unreadable file; the pool is
installed only when at least one append succeeded (`customRootCA`). -/
def buildRootCAs (env : CryptoEnv) (rootCAFile rootCAPEM : String) :
    Except String (Option CertPool) :=
  if rootCAFile ≠ "" ∨ rootCAPEM ≠ "" then
    let rootPool : CertPool :=
      if env.systemPoolOk then ⟨PoolBase.systemPool, []⟩
      else ⟨PoolBase.emptyPool, []⟩
    let afterPEM : Except String (CertPool × Bool) :=
      if rootCAPEM ≠ "" then
        if env.appendCertsOk rootCAPEM then
          .ok ⟨{ rootPool with
            appended := rootPool.appended ++ [rootCAPEM] }, true⟩
        else
          .error "anthropic: invalid root CA PEM"
      else
        .ok ⟨rootPool, false⟩
    let afterFile : Except String (CertPool × Bool) :=
      afterPEM.bind fun pc =>
        if rootCAFile ≠ "" then
          match env.readFile rootCAFile with
          | .error e =>
            .error ("anthropic: unable to read root CA file " ++
              rootCAFile ++ ": " ++ e)
          | .ok pemBytes =>
            if env.appendCertsOk pemBytes then
              .ok ⟨{ pc.1 with
                appended := pc.1.appended ++ [pemBytes] }, true⟩
            else
              .error ("anthropic: invalid root CA file " ++ rootCAFile)
        else
          .ok pc
    afterFile.map fun pc => if pc.2 then some pc.1 else none
  else
    .ok none

/-- The pin portion of `buildAnthropicHTTPClient`: after normalisation, a
non-empty pin string must decode as base64, else construction fails; on
success the decoded pin is installed. -/
def buildPin (env : CryptoEnv) (spkiHash : String) :
    Except String (Option (List Nat)) :=
  let spki := normalizePin spkiHash
  if spki ≠ "" then
    match env.base64Decode spki with
    | none => .error "anthropic: invalid SPKI hash"
    | some expectedPin => .ok (some expectedPin)
  else
    .ok none

/-- `buildAnthropicHTTPClient` (anthropic_implementation.go): the root-CA
handling followed by the pin handling, then the client with a TLS 1.2
floor, a 10 s handshake timeout and a 30 s overall timeout.  The three
string arguments are the trust-policy inputs as resolved by
`valueFromProviderOrEnv` (provider option first, environment variable
fallback). -/
def buildAnthropicHTTPClient (env : CryptoEnv)
    (rootCAFile rootCAPEM spkiHash : String) : Except String HTTPClient :=
  (buildRootCAs env rootCAFile rootCAPEM).bind fun rootCAsV =>
    (buildPin env spkiHash).map fun pin =>
      { timeoutSeconds := 30, tlsHandshakeTimeoutSeconds := 10,
        forceAttemptHTTP2 := true,
        tlsClientConfig :=
          { minVersionTLS12 := true, RootCAs := rootCAsV,
            VerifyConnection := pin } }

theorem buildRootCAs_custom (env : CryptoEnv) (file pem : String)
    (h : file ≠ "" ∨ pem ≠ "") (v : Option CertPool)
    (hE : buildRootCAs env file pem = .ok v) :
    ∃ pool, v = some pool ∧ pool.appended ≠ [] := by
  unfold buildRootCAs at hE
  rw [if_pos h] at hE
  by_cases hp : pem = "" <;> by_cases hf : file = ""
  · rcases h with h1 | h2
    · exact absurd hf h1
    · exact absurd hp h2
  · cases hr : env.readFile file with
    | error e => simp [hp, hf, hr, Except.bind, Except.map] at hE
    | ok bs =>
      cases ha : env.appendCertsOk bs with
      | false => simp [hp, hf, hr, ha, Except.bind, Except.map] at hE
      | true =>
        simp [hp, hf, hr, ha, Except.bind, Except.map] at hE
        subst hE
        exact ⟨_, rfl, by simp⟩
  · cases ha : env.appendCertsOk pem with
    | false => simp [hp, hf, ha, Except.bind, Except.map] at hE
    | true =>
      simp [hp, hf, ha, Except.bind, Except.map] at hE
      subst hE
      exact ⟨_, rfl, by simp⟩
  · cases ha : env.appendCertsOk pem with
    | false => simp [hp, hf, ha, Except.bind, Except.map] at hE
    | true =>
      cases hr : env.readFile file with
      | error e => simp [hp, hf, ha, hr, Except.bind, Except.map] at hE
      | ok bs =>
        cases ha2 : env.appendCertsOk bs with
        | false => simp [hp, hf, ha, hr, ha2, Except.bind, Except.map] at hE
        | true =>
          simp [hp, hf, ha, hr, ha2, Except.bind, Except.map] at hE
          subst hE
          exact ⟨_, rfl, by simp⟩

/-- C4: the transport builder fails at construction time on a malformed
inline root-CA PEM, on an unreadable root-CA file, on a root-CA file with
malformed PEM contents, and on a pin string that is not valid base64; and
whenever it does return a client, that client carries the requested
hardening: a configured pin is installed as the decoded pin, and a
requested custom CA yields an augmented (non-default) root pool — never a
silent fallback to an unpinned or system-default-only configuration. -/
theorem buildAnthropicHTTPClient_fail_closed (env : CryptoEnv)
    (file pem hash : String) :
    (pem ≠ "" → env.appendCertsOk pem = false →
      buildAnthropicHTTPClient env file pem hash =
        .error "anthropic: invalid root CA PEM") ∧
    (∀ e, file ≠ "" → (pem ≠ "" → env.appendCertsOk pem = true) →
      env.readFile file = .error e →
      buildAnthropicHTTPClient env file pem hash =
        .error ("anthropic: unable to read root CA file " ++ file ++
          ": " ++ e)) ∧
    (∀ bs, file ≠ "" → (pem ≠ "" → env.appendCertsOk pem = true) →
      env.readFile file = .ok bs → env.appendCertsOk bs = false →
      buildAnthropicHTTPClient env file pem hash =
        .error ("anthropic: invalid root CA file " ++ file)) ∧
    (normalizePin hash ≠ "" →
      env.base64Decode (normalizePin hash) = none →
      ∀ client, buildAnthropicHTTPClient env file pem hash ≠
        .ok client) ∧
    (∀ client, buildAnthropicHTTPClient env file pem hash = .ok client →
      (normalizePin hash ≠ "" →
        ∃ pin, env.base64Decode (normalizePin hash) = some pin ∧
          client.tlsClientConfig.VerifyConnection = some pin) ∧
      ((file ≠ "" ∨ pem ≠ "") →
        ∃ pool, client.tlsClientConfig.RootCAs = some pool ∧
          pool.appended ≠ [])) := by
  refine ⟨?_, ?_, ?_, ?_, ?_⟩
  · intro hpem hA
    have hcond : file ≠ "" ∨ pem ≠ "" := Or.inr hpem
    unfold buildAnthropicHTTPClient buildRootCAs
    rw [if_pos hcond]
    simp [hpem, hA, Except.bind, Except.map]
  · intro e hfile hpA hr
    have hcond : file ≠ "" ∨ pem ≠ "" := Or.inl hfile
    unfold buildAnthropicHTTPClient buildRootCAs
    rw [if_pos hcond]
    by_cases hp : pem = ""
    · simp [hfile, hp, hr, Except.bind, Except.map]
    · have hA := hpA hp
      simp [hfile, hp, hA, hr, Except.bind, Except.map]
  · intro bs hfile hpA hr hA2
    have hcond : file ≠ "" ∨ pem ≠ "" := Or.inl hfile
    unfold buildAnthropicHTTPClient buildRootCAs
    rw [if_pos hcond]
    by_cases hp : pem = ""
    · simp [hfile, hp, hr, hA2, Except.bind, Except.map]
    · have hA := hpA hp
      simp [hfile, hp, hA, hr, hA2, Except.bind, Except.map]
  · intro hns hdec client
    unfold buildAnthropicHTTPClient
    cases hE : buildRootCAs env file pem with
    | error e => simp [Except.bind]
    | ok v => simp [Except.bind, buildPin, hns, hdec, Except.map]
  · intro client hok
    unfold buildAnthropicHTTPClient at hok
    cases hE : buildRootCAs env file pem with
    | error e =>
      rw [hE] at hok
      simp [Except.bind] at hok
    | ok v =>
      rw [hE] at hok
      cases hP : buildPin env hash with
      | error e =>
        rw [hP] at hok
        simp [Except.bind, Except.map] at hok
      | ok pin =>
        rw [hP] at hok
        simp only [Except.bind, Except.map] at hok
        cases hok
        constructor
        · intro hns
          unfold buildPin at hP
          rw [if_pos hns] at hP
          cases hd : env.base64Decode (normalizePin hash) with
          | none => rw [hd] at hP; exact absurd hP (by simp)
          | some p =>
            rw [hd] at hP
            cases hP
            exact ⟨p, rfl, rfl⟩
        · intro hca
          obtain ⟨pool, hv, hne⟩ :=
            buildRootCAs_custom env file pem hca v hE
          exact ⟨pool, by simp [hv], hne⟩

/-- A concrete environment for the C4 witness: no readable files, exactly
one well-formed PEM blob, exactly one valid base64 pin string. -/
def cryptoEnvW : CryptoEnv :=
  { systemPoolOk := true,
    readFile := fun _ => .error "no such file",
    appendCertsOk := fun s => s == "GOODPEM",
    base64Decode := fun s =>
      if s = "cGlu" then some [112, 105, 110] else none }

/-- The client that `buildAnthropicHTTPClient` returns in the C4
witness's success case. -/
def clientW : HTTPClient :=
  { timeoutSeconds := 30, tlsHandshakeTimeoutSeconds := 10,
    forceAttemptHTTP2 := true,
    tlsClientConfig :=
      { minVersionTLS12 := true,
        RootCAs := some ⟨PoolBase.systemPool, ["GOODPEM"]⟩,
        VerifyConnection := some [112, 105, 110] } }

/-- Witness for C4 at concrete inputs: malformed inline PEM fails,
unreadable CA file fails, malformed base64 pin never yields a client, and
a successful build with a configured pin carries the decoded pin. -/
theorem buildAnthropicHTTPClient_fail_closed_witness :
    buildAnthropicHTTPClient cryptoEnvW "" "BADPEM" "" =
      .error "anthropic: invalid root CA PEM" ∧
    buildAnthropicHTTPClient cryptoEnvW "ca.pem" "" "" =
      .error "anthropic: unable to read root CA file ca.pem: no such file" ∧
    buildAnthropicHTTPClient cryptoEnvW "" "" "!!!" ≠
      .ok ⟨30, 10, true, ⟨true, none, none⟩⟩ ∧
    (∃ pin, cryptoEnvW.base64Decode (normalizePin "cGlu") = some pin ∧
      clientW.tlsClientConfig.VerifyConnection = some pin) := by
  refine ⟨?_, ?_, ?_, ?_⟩
  · exact (buildAnthropicHTTPClient_fail_closed cryptoEnvW "" "BADPEM"
      "").1 (by decide) rfl
  · exact (buildAnthropicHTTPClient_fail_closed cryptoEnvW "ca.pem" ""
      "").2.1 "no such file" (by decide) (fun h => absurd rfl h) rfl
  · exact (buildAnthropicHTTPClient_fail_closed cryptoEnvW "" ""
      "!!!").2.2.2.1 (by decide) rfl ⟨30, 10, true, ⟨true, none, none⟩⟩
  · exact ((buildAnthropicHTTPClient_fail_closed cryptoEnvW "" "GOODPEM"
      "cGlu").2.2.2.2 clientW rfl).1 (by decide)

end Llm
